import Mathlib

/-!
Verification of the result post-processing and query pipeline of
`explorer/models.py` (django-sql-explorer), shallowly embedded in Lean 4.

Cell values of a result set are dynamically typed in Python; the claims
concern integer, text (`str` / `unicode`) and `None` cells, which we embed
as the inductive `Value`.  Statistics are rationals (`ℚ`), standing for
Python floats; a statistic whose reducer would raise in Python (e.g. the
average of an empty list, a sum over non-numeric data) is `none`.
-/

namespace Explorer

/-- A result-set cell value: Python `int`, `str` (byte string), `unicode`
or `None`. -/
inductive Value where
  | int (n : Int)
  | str (s : String)
  | unicode (s : String)
  | null
  deriving DecidableEq, Repr

/-- `isinstance(v, basestring)` — true for `str` and `unicode` values. -/
def isBaseString : Value → Bool
  | Value.str _ => true
  | Value.unicode _ => true
  | _ => false

/-- `type(v) is unicode` — true only for `unicode` values. -/
def isUnicodeValue : Value → Bool
  | Value.unicode _ => true
  | _ => false

/-- `str(v)` / `unicode(v)`: Python string form of a cell value. -/
def pyStr : Value → String
  | Value.int n => toString n
  | Value.str s => s
  | Value.unicode s => s
  | Value.null => "None"

/-- Numeric content of a cell, when it has one (`int` only; text and
`None` are not numbers and make Python's `sum`/`min`/`max` raise). -/
def valNum : Value → Option ℚ
  | Value.int n => some (n : ℚ)
  | _ => none

/-- All-numeric view of a column: `some` list of rationals exactly when
every cell is numeric (otherwise a Python reducer would raise). -/
def numsOf : List Value → Option (List ℚ)
  | [] => some []
  | v :: t =>
    match valNum v, numsOf t with
    | some q, some qs => some (q :: qs)
    | _, _ => none

/-- Python 2 `round(x, p)` rounds half away from zero. -/
def pyRoundInt (x : ℚ) : ℤ :=
  if 0 ≤ x then ⌊x + 1/2⌋ else -⌊-x + 1/2⌋

/-- `round(float(v), precision)`: round to `p` decimal places, half away
from zero. -/
def roundTo (p : ℕ) (x : ℚ) : ℚ :=
  (pyRoundInt (x * (10 : ℚ) ^ p) : ℚ) / (10 : ℚ) ^ p

/-- Reducer `sum`: defined when every cell is numeric. -/
def pySum (l : List Value) : Option ℚ :=
  (numsOf l).map List.sum

/-- Reducer `len`: always defined. -/
def pyLen (l : List Value) : Option ℚ :=
  some (l.length : ℚ)

/-- Reducer `lambda x: float(sum(x)) / float(len(x))`: defined when every
cell is numeric and the list is non-empty (division by zero raises). -/
def pyAvg (l : List Value) : Option ℚ :=
  (numsOf l).bind (fun ns => if ns.length = 0 then none else some (ns.sum / (ns.length : ℚ)))

/-- Minimum of a non-empty list of rationals. -/
def listMin : List ℚ → Option ℚ
  | [] => none
  | x :: t => some (t.foldl min x)

/-- Maximum of a non-empty list of rationals. -/
def listMax : List ℚ → Option ℚ
  | [] => none
  | x :: t => some (t.foldl max x)

/-- Reducer `min`. -/
def pyMin (l : List Value) : Option ℚ :=
  (numsOf l).bind listMin

/-- Reducer `max`. -/
def pyMax (l : List Value) : Option ℚ :=
  (numsOf l).bind listMax

/-- Reducer `lambda x: sum(map(lambda y: 1 if y is None else 0, x))`:
counts the `None` cells; always defined. -/
def pyNullCount (l : List Value) : Option ℚ :=
  some ((l.countP (fun v => v = Value.null)) : ℚ)

/-- `ColumnStat(label, statfn, precision, handles_null)`. -/
structure ColumnStat where
  label : String
  statfn : List Value → Option ℚ
  precision : ℕ
  handles_null : Bool

/-- `ColumnStat.__call__`: `round(float(self.statfn(coldata)), self.precision)
if coldata else 0`. -/
def ColumnStat.call (s : ColumnStat) (coldata : List Value) : Option ℚ :=
  if coldata = [] then some 0 else (s.statfn coldata).map (roundTo s.precision)

/-- The fixed battery of six statistics built in `ColumnSummary.__init__`. -/
def theStats : List ColumnStat :=
  [ ⟨"Sum", pySum, 2, false⟩,
    ⟨"Length", pyLen, 0, false⟩,
    ⟨"Average", pyAvg, 2, false⟩,
    ⟨"Minimum", pyMin, 2, false⟩,
    ⟨"Maximum", pyMax, 2, false⟩,
    ⟨"NULLs", pyNullCount, 0, true⟩ ]

/-- `without_nulls = map(lambda x: 0 if x is None else x, col)`. -/
def withoutNulls (col : List Value) : List Value :=
  col.map (fun v => if v = Value.null then Value.int 0 else v)

/-- `ColumnSummary.__init__` followed by the `stats` property: each stat is
applied to the raw column if it `handles_null`, else to `without_nulls`. -/
def ColumnSummary.stats (col : List Value) : List (String × Option ℚ) :=
  theStats.map (fun s => (s.label, s.call (if s.handles_null then col else withoutNulls col)))

/-! ## The cursor / connection abstraction and `QueryResult` -/

/-- A backend column descriptor: `d[0]` is the column name (`c.name`), and
`type_code` is the optional type tag (`hasattr(c, 'type_code')`). -/
structure Descr where
  name : String
  type_code : Option Int
  deriving DecidableEq, Repr

/-- Outcome of `cursor.execute(sql)` on the backend: either success, with
the cursor's `description` (possibly `None`) and the rows `fetchall` will
return, or a `DatabaseError` carrying a message. -/
inductive ExecResult where
  | ok (description : Option (List Descr)) (rows : List (List Value))
  | dbError (e : String)

/-- The connection abstraction returned by `get_connection()`:
`numberTypes = some ts` models `conn.Database.NUMBER.values` when the
driver exposes native numeric type metadata (`hasattr(conn.Database,
"NUMBER")`), `none` when it does not; `execOutcome` is what
`cursor.execute` does for a given SQL string. -/
structure Conn where
  numberTypes : Option (List Int)
  execOutcome : String → ExecResult

/-- Observable cursor lifecycle events, in order of occurrence. -/
inductive CursorEvent where
  | opened
  | executed
  | execFailed (e : String)
  | fetched
  | closed
  deriving DecidableEq, Repr

/-- Python truthiness of `a or b` for an optional list (`None` and the
empty list are falsy). -/
def pyOrList {α : Type} (a : Option (List α)) (b : List α) : List α :=
  match a with
  | none => b
  | some l => if l.isEmpty then b else l

/-- `QueryResult.execute_query`: open a cursor, run the SQL; on
`DatabaseError` close the cursor and re-raise the same error; on success
return the still-open cursor.  The first component is the trace of cursor
events up to the point where control returns. -/
def execute_query (conn : Conn) (sql : String) :
    List CursorEvent × Except String (Option (List Descr) × List (List Value)) :=
  match conn.execOutcome sql with
  | ExecResult.dbError e =>
    ([CursorEvent.opened, CursorEvent.execFailed e, CursorEvent.closed], Except.error e)
  | ExecResult.ok d rows =>
    ([CursorEvent.opened, CursorEvent.executed], Except.ok (d, rows))

/-- The state of a `QueryResult` after `__init__`: `_description` (with
`cursor.description or []` applied) and `_data`. -/
structure QR where
  description : List Descr
  _data : List (List Value)
  deriving DecidableEq, Repr

/-- `QueryResult.__init__`: run `execute_query`; a propagated error leaves
`__init__` with the trace produced so far, while success reads
`cursor.description or []`, fetches all rows (`[list(r) for r in
cursor.fetchall()]`) and closes the cursor. -/
def queryResultInit (conn : Conn) (sql : String) :
    List CursorEvent × Except String QR :=
  match execute_query conn sql with
  | (evs, Except.error e) => (evs, Except.error e)
  | (evs, Except.ok (d, rows)) =>
    (evs ++ [CursorEvent.fetched, CursorEvent.closed],
     Except.ok ⟨pyOrList d [], rows.map (fun r => r)⟩)

/-- `QueryResult._get_headers`:
`[d[0] for d in self._description] if self._description else ['--']`. -/
def _get_headers (description : List Descr) : List String :=
  if description.isEmpty then ["--"] else description.map Descr.name

/-- The `headers` the instance uses (`self._headers = self._get_headers()`). -/
def QR.headers (qr : QR) : List String :=
  _get_headers qr.description

/-- `QueryResult.column(ix)`: `[r[ix] for r in self.data]` (an index past
the end of a row is modelled as `None`; in Python it would raise). -/
def QR.column (qr : QR) (ix : ℕ) : List Value :=
  qr._data.map (fun r => r.getD ix Value.null)

/-- `unicode(d[ix]).isnumeric()`: true iff the string is non-empty and all
of its characters are numeric. -/
def strIsNumeric (s : String) : Bool :=
  !s.isEmpty && s.toList.all Char.isDigit

/-- `QueryResult._get_numerics`: with native numeric metadata, keep the
descriptors whose `type_code` is among the driver's number types;
otherwise sniff the first data row, classifying column `ix` numeric when
`not isinstance(d[ix], basestring) and unicode(d[ix]).isnumeric()`; with
no data rows, no numeric columns. -/
def _get_numerics (conn : Conn) (qr : QR) : List (ℕ × String) :=
  match conn.numberTypes with
  | some nums =>
    qr.description.enum.filterMap (fun p =>
      match p.2.type_code with
      | some t => if t ∈ nums then some (p.1, p.2.name) else none
      | none => none)
  | none =>
    match qr._data with
    | [] => []
    | d :: _ =>
      qr.description.enum.filterMap (fun p =>
        if !isBaseString (d.getD p.1 Value.null)
            && strIsNumeric (pyStr (d.getD p.1 Value.null)) then
          some (p.1, p.2.name)
        else none)

/-- `QueryResult._get_unicodes`: indices of the first row's cells whose
type is exactly `unicode`; empty when there are no rows. -/
def _get_unicodes (data : List (List Value)) : List ℕ :=
  match data with
  | [] => []
  | d :: _ => d.enum.filterMap (fun p => if isUnicodeValue p.2 then some p.1 else none)

/-- A display-transform format string with one placeholder, e.g. `"#{}"`:
`format t s = t.pre ++ s ++ t.suf`. -/
structure FormatTemplate where
  pre : String
  suf : String
  deriving DecidableEq, Repr

/-- `t.format(s)` for a one-placeholder format string. -/
def FormatTemplate.format (t : FormatTemplate) (s : String) : String :=
  t.pre ++ s ++ t.suf

/-- `QueryResult._get_transforms`: `[(self.headers.index(field), template)
for field, template in transforms if field in self.headers]`. -/
def _get_transforms (headers : List String) (transforms : List (String × FormatTemplate)) :
    List (ℕ × FormatTemplate) :=
  transforms.filterMap (fun ft =>
    if ft.1 ∈ headers then some (headers.indexOf ft.1, ft.2) else none)

/-- `r[u].encode('utf-8') if r[u] is not None else r[u]`: re-encode a
`unicode` cell to a byte string, pass `None` through (other cell types
would raise in Python and are left unchanged here). -/
def pyEncodeCell : Value → Value
  | Value.unicode s => Value.str s
  | v => v

/-- One pass of the `for r in self.data` body over a single row: first the
unicode re-encoding at every index of `unicodes`, then each transform
`(ix, t)` rewrites `r[ix]` to `t.format(str(r[ix]))`. -/
def processRow (unicodes : List ℕ) (transforms : List (ℕ × FormatTemplate))
    (r : List Value) : List Value :=
  let r1 := unicodes.foldl (fun acc u => acc.set u (pyEncodeCell (acc.getD u Value.null))) r
  transforms.foldl
    (fun acc it => acc.set it.1 (Value.str (it.2.format (pyStr (acc.getD it.1 Value.null))))) r1

/-- `QueryResult.process`: the summaries are built first, from the data as
fetched; then the rows are rewritten in place (unicode re-encoding, then
display transforms).  Returns (summary, mutated data). -/
def process (conn : Conn) (cfg : List (String × FormatTemplate)) (qr : QR) :
    List (String × List (String × Option ℚ)) × List (List Value) :=
  let summary := (_get_numerics conn qr).map (fun p => (p.2, ColumnSummary.stats (qr.column p.1)))
  let unicodes := _get_unicodes qr._data
  let transforms := _get_transforms qr.headers cfg
  (summary, qr._data.map (processRow unicodes transforms))

/-- The attribute state behind the `data` / `headers` / `summary`
properties; `Option` models a Python attribute that may hold `None`. -/
structure QueryResultAttrs where
  _data : Option (List (List Value))
  _headers : Option (List String)
  _summary : Option (List (String × List (String × Option ℚ)))

/-- Property `data`: `self._data or []`. -/
def QueryResultAttrs.data (qr : QueryResultAttrs) : Option (List (List Value)) :=
  some (pyOrList qr._data [])

/-- Property `headers`: `self._headers or []`. -/
def QueryResultAttrs.headers (qr : QueryResultAttrs) : Option (List String) :=
  some (pyOrList qr._headers [])

/-- Property `summary`: `self._summary or {}`. -/
def QueryResultAttrs.summary (qr : QueryResultAttrs) :
    Option (List (String × List (String × Option ℚ))) :=
  some (pyOrList qr._summary [])

/-! ## The parameter codec and the safety filter

The functions `swap_params`, `extract_params`, `shared_dict_update` and
`passes_blacklist` live in `explorer.utils`, which is not part of the
sources at hand; they are modelled below from the specification. -/

/-- Modelled from the spec: a placeholder identifier character,
`[A-Za-z0-9_]`. -/
def isIdentChar (c : Char) : Bool :=
  c.isAlphanum || c = '_'

/-- Modelled from the spec: the replacement for a matched placeholder —
the supplied value's string form when `params` has a same-named key,
otherwise just the identifier with the delimiters removed. -/
def paramSub (params : List (String × String)) (ident : List Char) : List Char :=
  match List.lookup (String.mk ident) params with
  | some v => v.toList
  | none => ident

/-- Modelled from the spec: one left-to-right substitution pass over the
template.  A `$$identifier$$` token is replaced (non-recursively — the
replacement text is emitted, not re-scanned); malformed delimiters are
left as literal text.  `fuel` bounds the recursion and is instantiated
with the input length, which one character of progress per step never
exhausts. -/
def swapGo (params : List (String × String)) : ℕ → List Char → List Char
  | 0, cs => cs
  | fuel + 1, cs =>
    match cs with
    | [] => []
    | '$' :: '$' :: rest =>
      let ident := rest.takeWhile isIdentChar
      let rest2 := rest.dropWhile isIdentChar
      if !ident.isEmpty && rest2.take 2 = ['$', '$'] then
        paramSub params ident ++ swapGo params fuel (rest2.drop 2)
      else
        '$' :: swapGo params fuel ('$' :: rest)
    | c :: rest => c :: swapGo params fuel rest

/-- Modelled from the spec: `swap_params(template, params)` from
`explorer.utils` (absent from the sources) — substitute every
`$$identifier$$` placeholder. -/
def swap_params (sql : String) (params : List (String × String)) : String :=
  String.mk (swapGo params sql.toList.length sql.toList)

/-- Modelled from the spec: the scan underlying `extract_params` — the
names of the `$$identifier$$` placeholders of the template, in order of
occurrence, duplicates kept. -/
def extractGo : ℕ → List Char → List String
  | 0, _ => []
  | fuel + 1, cs =>
    match cs with
    | [] => []
    | '$' :: '$' :: rest =>
      let ident := rest.takeWhile isIdentChar
      let rest2 := rest.dropWhile isIdentChar
      if !ident.isEmpty && rest2.take 2 = ['$', '$'] then
        String.mk ident :: extractGo fuel (rest2.drop 2)
      else
        extractGo fuel ('$' :: rest)
    | _ :: rest => extractGo fuel rest

/-- Modelled from the spec: the set of placeholder names declared in a
template, duplicates collapsed (first occurrence kept). -/
def extractNames (sql : String) : List String :=
  (extractGo sql.toList.length sql.toList).foldl
    (fun acc x => if x ∈ acc then acc else acc ++ [x]) []

/-- Modelled from the spec: `extract_params(template)` from
`explorer.utils` (absent from the sources) — every declared placeholder
mapped to the `None` marker. -/
def extract_params (sql : String) : List (String × Option String) :=
  (extractNames sql).map (fun n => (n, none))

/-- Modelled from the spec: `shared_dict_update(target, src)` from
`explorer.utils` (absent from the sources) — overlay each key of `target`
with the matching value of `src` when one exists; keys of `src` absent
from `target` are dropped. -/
def shared_dict_update (target : List (String × Option String))
    (source : List (String × String)) : List (String × Option String) :=
  target.map (fun kv =>
    match List.lookup kv.1 source with
    | some v => (kv.1, some v)
    | none => kv)

/-- `pat` occurs as a contiguous substring of `hay`. -/
def containsSub (pat : List Char) : List Char → Bool
  | [] => pat.isEmpty
  | c :: t => pat.isPrefixOf (c :: t) || containsSub pat t

/-- Case-folded character view of a string, for case-insensitive search. -/
def upperChars (s : String) : List Char :=
  s.toList.map Char.toUpper

/-- Modelled from the spec: `passes_blacklist(sql)` from `explorer.utils`
(absent from the sources) — case-insensitive substring search of each
configured blacklist pattern over the given SQL text; passes iff no
pattern matches. -/
def passesBlacklistSql (sql : String) (blacklist : List String) : Bool :=
  blacklist.all (fun p => !containsSub (upperChars p) (upperChars sql))

/-- The fields of `Query` the pipeline uses: the SQL template and the
optional parameter dictionary popped in `__init__`. -/
structure Query where
  sql : String
  params : Option (List (String × String))

/-- `Query.final_sql`: `swap_params(self.sql, self.params)`. -/
def Query.final_sql (q : Query) : String :=
  swap_params q.sql (q.params.getD [])

/-- `Query.passes_blacklist`: `passes_blacklist(self.final_sql())`. -/
def Query.passes_blacklist (q : Query) (blacklist : List String) : Bool :=
  passesBlacklistSql q.final_sql blacklist

/-- `Query.available_params`: `p = extract_params(self.sql)`, then
`shared_dict_update(p, self.params)` when `self.params` is truthy. -/
def Query.available_params (q : Query) : List (String × Option String) :=
  let p := extract_params q.sql
  match q.params with
  | none => p
  | some ps => if ps.isEmpty then p else shared_dict_update p ps

/-! ## Theorems -/

/-- C1: every one of the five statistics Sum, Length, Average, Minimum and
Maximum is computed over the column with each null cell coerced to 0
(`without_nulls`), while NULLs is computed over the raw column and counts
exactly the null cells; on the column `[1, 2, 3, None]` this yields Sum=6,
Length=4, Average=1.5, Minimum=0, Maximum=3, NULLs=1. -/
theorem claim_C1_column_summary :
    (∀ col, ColumnSummary.stats col =
      [("Sum", ColumnStat.call ⟨"Sum", pySum, 2, false⟩ (withoutNulls col)),
       ("Length", ColumnStat.call ⟨"Length", pyLen, 0, false⟩ (withoutNulls col)),
       ("Average", ColumnStat.call ⟨"Average", pyAvg, 2, false⟩ (withoutNulls col)),
       ("Minimum", ColumnStat.call ⟨"Minimum", pyMin, 2, false⟩ (withoutNulls col)),
       ("Maximum", ColumnStat.call ⟨"Maximum", pyMax, 2, false⟩ (withoutNulls col)),
       ("NULLs", ColumnStat.call ⟨"NULLs", pyNullCount, 0, true⟩ col)]) ∧
    (∀ col, pyNullCount col = some ((col.countP (fun v => v = Value.null) : ℚ))) ∧
    ColumnSummary.stats [Value.int 1, Value.int 2, Value.int 3, Value.null] =
      [("Sum", some 6), ("Length", some 4), ("Average", some (3 / 2)),
       ("Minimum", some 0), ("Maximum", some 3), ("NULLs", some 1)] := by
  refine ⟨fun col => rfl, fun col => rfl, ?_⟩
  simp [ColumnSummary.stats, theStats, ColumnStat.call, withoutNulls, pySum, pyLen, pyAvg,
    pyMin, pyMax, pyNullCount, numsOf, roundTo, pyRoundInt, listMin, listMax, valNum]
  norm_num [Int.floor_eq_iff]

/-- C5: on an empty column all six statistics are 0, and the Average
reducer itself is undefined on the empty column (its division by zero
would raise) — the emptiness guard in `ColumnStat.__call__` short-circuits
before the reducer runs. -/
theorem claim_C5_empty_column :
    ColumnSummary.stats [] =
      [("Sum", some 0), ("Length", some 0), ("Average", some 0),
       ("Minimum", some 0), ("Maximum", some 0), ("NULLs", some 0)] ∧
    pyAvg [] = none ∧
    (∀ s : ColumnStat, s.call [] = some 0) := by
  refine ⟨by decide, by decide, fun s => ?_⟩
  simp [ColumnStat.call]

/-- C2: the cursor is closed on every exit path of query execution, and
when the backend raises an execution error `execute_query` closes the
cursor before control returns (the `closed` event is the last event of the
trace) and propagates the very same error, with no retry, transformation
or swallowing. -/
theorem claim_C2_cursor_release :
    (∀ conn sql, CursorEvent.closed ∈ (queryResultInit conn sql).1) ∧
    (∀ conn sql e, conn.execOutcome sql = ExecResult.dbError e →
      execute_query conn sql =
        ([CursorEvent.opened, CursorEvent.execFailed e, CursorEvent.closed],
         Except.error e) ∧
      (queryResultInit conn sql).2 = Except.error e) := by
  constructor
  · intro conn sql
    cases h : conn.execOutcome sql <;>
      simp [queryResultInit, execute_query, h]
  · intro conn sql e h
    constructor
    · simp [execute_query, h]
    · simp [queryResultInit, execute_query, h]

/-- C2 witness: a backend whose `execute` raises `DatabaseError "boom"`
yields the trace open–fail–close and the unchanged error. -/
theorem claim_C2_cursor_release_witness :
    execute_query ⟨none, fun _ => ExecResult.dbError "boom"⟩ "SELECT 1" =
      ([CursorEvent.opened, CursorEvent.execFailed "boom", CursorEvent.closed],
       Except.error "boom") :=
  (claim_C2_cursor_release.2 ⟨none, fun _ => ExecResult.dbError "boom"⟩ "SELECT 1" "boom" rfl).1

/-- C6: when the backend returned a non-empty sequence of column
descriptors the headers are exactly the first element (the name) of each
descriptor in order; when it returned none (`None` or the empty sequence)
the headers are the single placeholder `"--"`. -/
theorem claim_C6_header_derivation :
    (∀ d : Option (List Descr), d = none ∨ d = some [] →
      _get_headers (pyOrList d []) = ["--"]) ∧
    (∀ l : List Descr, l ≠ [] →
      _get_headers (pyOrList (some l) []) = l.map Descr.name) := by
  constructor
  · rintro d (rfl | rfl) <;> simp [_get_headers, pyOrList]
  · intro l hl
    simp [_get_headers, pyOrList, hl]

/-- C6 witness: an absent descriptor sequence yields the placeholder
header, and descriptors named `id`, `name` yield exactly those headers. -/
theorem claim_C6_header_derivation_witness :
    _get_headers (pyOrList none []) = ["--"] ∧
    _get_headers (pyOrList (some [⟨"id", some 23⟩, ⟨"name", none⟩]) []) = ["id", "name"] := by
  constructor
  · exact claim_C6_header_derivation.1 none (Or.inl rfl)
  · have h := claim_C6_header_derivation.2 [⟨"id", some 23⟩, ⟨"name", none⟩] (by decide)
    simpa using h

/-- C10: the public accessors `data`, `headers` and `summary` never return
`None`: there is always an actual collection behind `some`, and when the
underlying field is `None` or empty the accessor returns the empty
collection. -/
theorem claim_C10_accessors_never_none (qr : QueryResultAttrs) :
    (∃ l, qr.data = some l) ∧ (∃ l, qr.headers = some l) ∧ (∃ l, qr.summary = some l) ∧
    (qr._data = none ∨ qr._data = some [] → qr.data = some []) ∧
    (qr._headers = none ∨ qr._headers = some [] → qr.headers = some []) ∧
    (qr._summary = none ∨ qr._summary = some [] → qr.summary = some []) := by
  refine ⟨⟨_, rfl⟩, ⟨_, rfl⟩, ⟨_, rfl⟩, ?_, ?_, ?_⟩ <;>
    rintro (h | h) <;>
      simp [QueryResultAttrs.data, QueryResultAttrs.headers, QueryResultAttrs.summary,
        pyOrList, h]

/-- C10 witness: on a state with unset `_data`, empty `_headers` and unset
`_summary`, every accessor yields the empty collection. -/
theorem claim_C10_accessors_never_none_witness :
    QueryResultAttrs.data ⟨none, some [], none⟩ = some [] ∧
    QueryResultAttrs.headers ⟨none, some [], none⟩ = some [] ∧
    QueryResultAttrs.summary ⟨none, some [], none⟩ = some [] :=
  ⟨(claim_C10_accessors_never_none ⟨none, some [], none⟩).2.2.2.1 (Or.inl rfl),
   (claim_C10_accessors_never_none ⟨none, some [], none⟩).2.2.2.2.1 (Or.inr rfl),
   (claim_C10_accessors_never_none ⟨none, some [], none⟩).2.2.2.2.2 (Or.inl rfl)⟩

/-- C3: `process` computes every per-column summary from the cell values
as fetched, before any display transform or re-encoding rewrites them —
the summary component does not depend on the transform configuration at
all — and a configured transform whose header exists in the headers
rewrites every cell of that column to the template applied to the cell's
string form.  On headers `id`, `name`, rows `[[1, u"x"], [2, u"y"]]` and
the transform `("id", "#{}")`, the `id` cells become `"#1"`, `"#2"` while
the summary is still `ColumnSummary` of `[1, 2]`. -/
theorem claim_C3_summary_before_transforms
    (conn : Conn) (qr : QR) (cfg cfg' : List (String × FormatTemplate))
    (f : String) (t : FormatTemplate) (hf : f ∈ qr.headers) :
    (process conn cfg qr).1 = (process conn cfg' qr).1 ∧
    (process conn cfg qr).1 =
      (_get_numerics conn qr).map (fun p => (p.2, ColumnSummary.stats (qr.column p.1))) ∧
    (process conn [(f, t)] qr).2 =
      qr._data.map (fun r =>
        let r1 := (_get_unicodes qr._data).foldl
          (fun acc u => acc.set u (pyEncodeCell (acc.getD u Value.null))) r
        r1.set (qr.headers.indexOf f)
          (Value.str (t.format (pyStr (r1.getD (qr.headers.indexOf f) Value.null))))) ∧
    (process ⟨some [23], fun _ => ExecResult.ok none []⟩ [("id", ⟨"#", ""⟩)]
        ⟨[⟨"id", some 23⟩, ⟨"name", some 25⟩],
         [[Value.int 1, Value.unicode "x"], [Value.int 2, Value.unicode "y"]]⟩).1 =
      [("id", ColumnSummary.stats [Value.int 1, Value.int 2])] ∧
    (process ⟨some [23], fun _ => ExecResult.ok none []⟩ [("id", ⟨"#", ""⟩)]
        ⟨[⟨"id", some 23⟩, ⟨"name", some 25⟩],
         [[Value.int 1, Value.unicode "x"], [Value.int 2, Value.unicode "y"]]⟩).2 =
      [[Value.str "#1", Value.str "x"], [Value.str "#2", Value.str "y"]] := by
  refine ⟨rfl, rfl, ?_, rfl, by decide⟩
  simp [process, processRow, _get_transforms, hf]

/-- C3 witness: the concrete run above, with the hypothesis `"id" ∈
headers` discharged by evaluation. -/
theorem claim_C3_summary_before_transforms_witness :
    (process ⟨some [23], fun _ => ExecResult.ok none []⟩ [("id", ⟨"#", ""⟩)]
        ⟨[⟨"id", some 23⟩, ⟨"name", some 25⟩],
         [[Value.int 1, Value.unicode "x"], [Value.int 2, Value.unicode "y"]]⟩).2 =
      [[Value.str "#1", Value.str "x"], [Value.str "#2", Value.str "y"]] :=
  (claim_C3_summary_before_transforms
    ⟨some [23], fun _ => ExecResult.ok none []⟩
    ⟨[⟨"id", some 23⟩, ⟨"name", some 25⟩],
     [[Value.int 1, Value.unicode "x"], [Value.int 2, Value.unicode "y"]]⟩
    [("id", ⟨"#", ""⟩)] [] "id" ⟨"#", ""⟩ (by decide)).2.2.2.2

/-- C4: with no native numeric type metadata on the connection, a column
is classified numeric iff the first row's cell at its index is not
text-typed and its string form is numeric; with zero rows there are zero
numeric columns and hence no per-column summaries. -/
theorem claim_C4_numeric_fallback (conn : Conn) (qr : QR)
    (hmeta : conn.numberTypes = none) :
    (qr._data = [] → _get_numerics conn qr = [] ∧ ∀ cfg, (process conn cfg qr).1 = []) ∧
    (∀ d rest, qr._data = d :: rest →
      ∀ ix name, (ix, name) ∈ _get_numerics conn qr ↔
        ((∃ c : Descr, qr.description[ix]? = some c ∧ c.name = name) ∧
         isBaseString (d.getD ix Value.null) = false ∧
         strIsNumeric (pyStr (d.getD ix Value.null)) = true)) := by
  constructor
  · intro hd
    have h1 : _get_numerics conn qr = [] := by
      simp [_get_numerics, hmeta, hd]
    exact ⟨h1, fun cfg => by simp [process, h1]⟩
  · intro d rest hd ix name
    simp only [_get_numerics, hmeta, hd, List.mem_filterMap]
    constructor
    · rintro ⟨⟨i, c⟩, hmem, hif⟩
      by_cases hc : (!isBaseString (d.getD i Value.null)
          && strIsNumeric (pyStr (d.getD i Value.null))) = true
      · rw [if_pos hc] at hif
        simp only [Prod.mk.injEq] at hif
        obtain ⟨rfl, rfl⟩ := hif
        rw [List.mk_mem_enum_iff_getElem?] at hmem
        simp only [Bool.and_eq_true, Bool.not_eq_true'] at hc
        exact ⟨⟨c, hmem, rfl⟩, hc.1, hc.2⟩
      · rw [if_neg hc] at hif
        exact absurd hif (by simp)
    · rintro ⟨⟨c, hget, hname⟩, hb1, hb2⟩
      refine ⟨(ix, c), ?_, ?_⟩
      · rw [List.mk_mem_enum_iff_getElem?]
        exact hget
      · rw [if_pos (by simp [List.getD] at hb1 hb2 ⊢; simp [hb1, hb2])]
        simp [hname]

/-- C4 witness: without metadata, the first row `[7, "5"]` classifies the
integer column numeric (the text column is excluded even though its text
looks numeric), and an empty result set yields no numeric columns. -/
theorem claim_C4_numeric_fallback_witness :
    (0, "n") ∈ _get_numerics ⟨none, fun _ => ExecResult.ok none []⟩
        ⟨[⟨"n", none⟩, ⟨"s", none⟩], [[Value.int 7, Value.str "5"]]⟩ ∧
    _get_numerics ⟨none, fun _ => ExecResult.ok none []⟩ ⟨[⟨"n", none⟩], []⟩ = [] :=
  ⟨((claim_C4_numeric_fallback ⟨none, fun _ => ExecResult.ok none []⟩
      ⟨[⟨"n", none⟩, ⟨"s", none⟩], [[Value.int 7, Value.str "5"]]⟩ rfl).2
      [Value.int 7, Value.str "5"] [] rfl 0 "n").mpr
    ⟨⟨⟨"n", none⟩, rfl, rfl⟩, by decide, by decide⟩,
   ((claim_C4_numeric_fallback ⟨none, fun _ => ExecResult.ok none []⟩
      ⟨[⟨"n", none⟩], []⟩ rfl).1 rfl).1⟩

/-- C7: `Query.passes_blacklist` evaluates the blacklist against the
fully substituted SQL — `swap_params` of the template with this query's
parameter values — never against the raw template; concretely, a template
that passes the blacklist on its own fails it once a parameter value
carrying `DROP` is swapped in. -/
theorem claim_C7_blacklist_on_substituted_sql :
    (∀ q bl, Query.passes_blacklist q bl =
      passesBlacklistSql (swap_params q.sql (q.params.getD [])) bl) ∧
    passesBlacklistSql "SELECT * FROM t WHERE id = $$v$$" ["DROP"] = true ∧
    Query.passes_blacklist
      ⟨"SELECT * FROM t WHERE id = $$v$$", some [("v", "1; DROP TABLE u")]⟩ ["DROP"] = false :=
  ⟨fun q bl => rfl, by decide, by decide⟩

/-- A fold of per-element in-place updates never changes the length of the
row it updates. -/
theorem length_foldl_update {β : Type} (l : List β) (f : List Value → β → List Value)
    (hf : ∀ acc b, (f acc b).length = acc.length) :
    ∀ r : List Value, (l.foldl f r).length = r.length := by
  induction l with
  | nil => intro r; rfl
  | cons b t ih => intro r; rw [List.foldl_cons, ih, hf]

/-- `processRow` only rewrites cells: the row keeps its length. -/
theorem processRow_length (us : List ℕ) (ts : List (ℕ × FormatTemplate)) (r : List Value) :
    (processRow us ts r).length = r.length := by
  unfold processRow
  exact (length_foldl_update ts _ (fun acc b => List.length_set acc b.1 _) _).trans
    (length_foldl_update us _ (fun acc b => List.length_set acc b _) r)

/-- C8: when every row has exactly as many cells as there are headers,
`process` preserves that invariant — it keeps the number of rows, keeps
every row's length (cells are rewritten in place, never added or
removed), and with a non-empty descriptor set the headers are one per
descriptor. -/
theorem claim_C8_row_shape_invariant (conn : Conn) (cfg : List (String × FormatTemplate))
    (qr : QR) (h : ∀ r ∈ qr._data, r.length = qr.headers.length) :
    (process conn cfg qr).2.length = qr._data.length ∧
    (∀ (us : List ℕ) (ts : List (ℕ × FormatTemplate)) (r : List Value),
      (processRow us ts r).length = r.length) ∧
    (∀ r ∈ (process conn cfg qr).2, r.length = qr.headers.length) ∧
    (∀ descr : List Descr, descr ≠ [] → (_get_headers descr).length = descr.length) := by
  refine ⟨by simp [process], processRow_length, ?_, ?_⟩
  · intro r hr
    simp only [process, List.mem_map] at hr
    obtain ⟨r0, hr0, rfl⟩ := hr
    rw [processRow_length]
    exact h r0 hr0
  · intro descr hd
    simp [_get_headers, hd]

/-- C8 witness: two one-cell rows under a one-descriptor header list stay
two rows after processing, with the shape hypothesis checked by
evaluation. -/
theorem claim_C8_row_shape_invariant_witness :
    (process ⟨some [23], fun _ => ExecResult.ok none []⟩ [("id", ⟨"#", ""⟩)]
        ⟨[⟨"id", some 23⟩], [[Value.int 1], [Value.int 2]]⟩).2.length = 2 := by
  have h := (claim_C8_row_shape_invariant ⟨some [23], fun _ => ExecResult.ok none []⟩
    [("id", ⟨"#", ""⟩)] ⟨[⟨"id", some 23⟩], [[Value.int 1], [Value.int 2]]⟩ (by decide)).1
  simpa using h

/-- Looking a name up in the freshly extracted parameter dictionary finds
the `None` marker exactly for declared placeholders. -/
theorem lookup_names_map (n : String) (names : List String) :
    List.lookup n (names.map fun m => (m, (none : Option String))) =
      if n ∈ names then some none else none := by
  induction names with
  | nil => rfl
  | cons m t ih =>
    simp only [List.map_cons, List.lookup_cons, List.mem_cons]
    by_cases h : n = m
    · simp [h]
    · have hb : (n == m) = false := by simp [h]
      simp [h, hb, ih]

/-- `shared_dict_update` overlays values key by key: a lookup after the
update returns the source's value when the source has the key, the old
value otherwise, and still fails for keys the target never had. -/
theorem lookup_shared_update (n : String) (t : List (String × Option String))
    (s : List (String × String)) :
    List.lookup n (shared_dict_update t s) =
      (List.lookup n t).map (fun old =>
        match List.lookup n s with
        | some v => some v
        | none => old) := by
  induction t with
  | nil => rfl
  | cons kv tl ih =>
    obtain ⟨k, v⟩ := kv
    simp only [shared_dict_update, List.map_cons] at ih ⊢
    by_cases h : n = k
    · subst h
      cases hs : List.lookup n s <;>
        simp [List.lookup_cons, hs]
    · have hb : (n == k) = false := by simp [h]
      cases hlk : List.lookup k s <;>
        simp [List.lookup_cons, hb, ih]

/-- C9: `Query.available_params` contains exactly the placeholder names
declared in the SQL template — keys of the supplied params that name no
declared placeholder are absent — and each declared name carries the
supplied value when the supplied params have a matching key, the `None`
marker otherwise. -/
theorem claim_C9_available_params (sql : String) (params : Option (List (String × String))) :
    (∀ n, (List.lookup n (Query.available_params ⟨sql, params⟩)).isSome = true ↔
      n ∈ extractNames sql) ∧
    (∀ n, n ∈ extractNames sql →
      List.lookup n (Query.available_params ⟨sql, params⟩) =
        some (List.lookup n (params.getD []))) := by
  have key : ∀ n, List.lookup n (Query.available_params ⟨sql, params⟩) =
      if n ∈ extractNames sql then some (List.lookup n (params.getD [])) else none := by
    intro n
    match params with
    | none =>
      simp only [Query.available_params, extract_params, Option.getD]
      rw [lookup_names_map]
      by_cases h : n ∈ extractNames sql <;> simp [h]
    | some ps =>
      by_cases hps : ps.isEmpty
      · have hnil : ps = [] := by simpa [List.isEmpty_iff] using hps
        subst hnil
        simp only [Query.available_params, extract_params, List.isEmpty_nil, if_true,
          Option.getD]
        rw [lookup_names_map]
        by_cases h : n ∈ extractNames sql <;> simp [h]
      · simp only [Query.available_params, extract_params, hps, Bool.false_eq_true, if_false,
          Option.getD]
        rw [lookup_shared_update, lookup_names_map]
        by_cases h : n ∈ extractNames sql
        · cases hlk : List.lookup n ps <;> simp [h, hlk]
        · simp [h]
  constructor
  · intro n
    rw [key n]
    by_cases h : n ∈ extractNames sql <;> simp [h]
  · intro n hn
    rw [key n, if_pos hn]

/-- C9 witness: on the template `SELECT $$a$$ $$b$$` with supplied params
`{a: "1", zz: "2"}`, the declared `a` carries the supplied value, the
declared but unsupplied `b` carries the `None` marker, and the undeclared
`zz` is absent. -/
theorem claim_C9_available_params_witness :
    List.lookup "a" (Query.available_params
        ⟨"SELECT $$a$$ $$b$$", some [("a", "1"), ("zz", "2")]⟩) = some (some "1") ∧
    List.lookup "b" (Query.available_params
        ⟨"SELECT $$a$$ $$b$$", some [("a", "1"), ("zz", "2")]⟩) = some none ∧
    (List.lookup "zz" (Query.available_params
        ⟨"SELECT $$a$$ $$b$$", some [("a", "1"), ("zz", "2")]⟩)).isSome = false := by
  have h := claim_C9_available_params "SELECT $$a$$ $$b$$" (some [("a", "1"), ("zz", "2")])
  refine ⟨?_, ?_, ?_⟩
  · rw [h.2 "a" (by decide)]; rfl
  · rw [h.2 "b" (by decide)]; rfl
  · have hz := h.1 "zz"
    have hnot : ¬ "zz" ∈ extractNames "SELECT $$a$$ $$b$$" := by decide
    cases hb : (List.lookup "zz" (Query.available_params
        ⟨"SELECT $$a$$ $$b$$", some [("a", "1"), ("zz", "2")]⟩)).isSome
    · rfl
    · exact absurd (hz.mp hb) hnot

end Explorer
